import Mathlib

/-!
Verification development for the `obs-localvocal` transcription filter
(`src/transcription-filter.cpp`).  The C++ functions are shallowly embedded
as pure Lean functions over an explicit `transcription_filter_data` state;
side effects that matter to the specification (freeing the engine handle,
notifying the condition variable, joining the worker thread, releasing
buffers, writing to sinks, reporting errors) are recorded as an explicit
trace of events in program order.  Machine pointers become `Option Nat`
identities (`none` = null), byte buffers become `List Nat`, and external
OBS / whisper collaborators become function-valued parameters.
-/

namespace LocalVocal

/-- `sizeof(float)` on the target platform: 4 bytes. -/
def sizeof_float : Nat := 4

/-- `MAX_AUDIO_CHANNELS` from the OBS headers (8). -/
def MAX_AUDIO_CHANNELS : Nat := 8

/-- OBS log levels from `util/base.h`: `LOG_ERROR 100`, `LOG_WARNING 200`,
`LOG_INFO 300`, `LOG_DEBUG 400`. -/
def LOG_ERROR : Int := 100

def LOG_WARNING : Int := 200

def LOG_INFO : Int := 300

def LOG_DEBUG : Int := 400

/-- Sampling strategies from `whisper.h`: `WHISPER_SAMPLING_GREEDY = 0`,
`WHISPER_SAMPLING_BEAM_SEARCH = 1`. -/
def WHISPER_SAMPLING_GREEDY : Int := 0

def WHISPER_SAMPLING_BEAM_SEARCH : Int := 1

/-- Byte-oriented circular buffer (`circlebuf` from the OBS utility headers),
modelled by the sequence of bytes it currently holds.  The filter only ever
appends on the producer side, so `push_back` is list append. -/
structure circlebuf where
  data : List Nat
deriving DecidableEq, Repr

/-- `circlebuf.size`: number of bytes held. -/
def circlebuf.size (b : circlebuf) : Nat := b.data.length

/-- `circlebuf_init`: empty buffer. -/
def circlebuf_init : circlebuf := ⟨[]⟩

/-- `circlebuf_push_back(buf, ptr, n)`: append the given bytes. -/
def circlebuf_push_back (b : circlebuf) (bytes : List Nat) : circlebuf :=
  ⟨b.data ++ bytes⟩

/-- `struct transcription_filter_audio_info` (frame count and timestamp of one
pushed packet).  The C code stores these records as raw bytes in a
`circlebuf`; we model the info buffer as a list of whole records, so its
length is the number of records. -/
structure transcription_filter_audio_info where
  frames : Nat
  timestamp : Nat
deriving DecidableEq, Repr

/-- `struct obs_audio_data`: per-channel byte arrays (`data`), frame count and
timestamp. -/
structure obs_audio_data where
  frames : Nat
  timestamp : Nat
  data : List (List Nat)
deriving DecidableEq, Repr

/-- The subset of `whisper_full_params` (from `whisper.h`) that
`transcription_filter_update` writes.  `strategy` is the field set by
`whisper_full_default_params`; floating-point fields are modelled as exact
rationals. -/
structure whisper_full_params where
  strategy : Int
  duration_ms : Nat
  language : String
  initial_prompt : String
  n_threads : Int
  n_max_text_ctx : Int
  translate : Bool
  no_context : Bool
  single_segment : Bool
  print_special : Bool
  print_progress : Bool
  print_realtime : Bool
  print_timestamps : Bool
  token_timestamps : Bool
  thold_pt : Rat
  thold_ptsum : Rat
  max_len : Int
  split_on_word : Bool
  max_tokens : Int
  speed_up : Bool
  suppress_blank : Bool
  suppress_non_speech_tokens : Bool
  temperature : Rat
  max_initial_ts : Rat
  length_penalty : Rat
deriving DecidableEq, Repr

/-- `struct transcription_filter_data` (`transcription-filter-data.h`).
Pointers (`whisper_context`, thread handle, resampler, weak text source)
become `Option Nat` identities; the heap-allocated mutexes and condition
variable become `Bool` (allocated / null); the copy-buffer allocation is
tracked by a `Bool`. -/
structure transcription_filter_data where
  channels : Nat
  sample_rate : Nat
  frames : Nat
  last_num_frames : Nat
  input_buffers : List circlebuf
  info_buffer : List transcription_filter_audio_info
  copy_buffers_alloc : Bool
  whisper_model_path : String
  whisper_context : Option Nat
  overlap_ms : Nat
  overlap_frames : Nat
  resampler : Option Nat
  whisper_buf_mutex : Bool
  whisper_ctx_mutex : Bool
  wshiper_thread_cv : Bool
  text_source_mutex : Bool
  text_source : Option Nat
  text_source_name : Option String
  output_file_path : String
  whisper_thread : Option Nat
  active : Bool
  log_level : Int
  vad_enabled : Bool
  log_words : Bool
  caption_to_stream : Bool
  whisper_params : whisper_full_params
deriving DecidableEq, Repr

/-- The loop `for (c = 0; c < channels; c++) circlebuf_push_back(&input_buffers[c],
audio->data[c], nbytes)` from `transcription_filter_filter_audio`, as a
recursion over the buffer list carrying the channel index `c0`. -/
def push_channels (c0 : Nat) (bufs : List circlebuf) (dat : List (List Nat))
    (nbytes channels : Nat) : List circlebuf :=
  match bufs with
  | [] => []
  | b :: bs =>
    (if c0 < channels then circlebuf_push_back b ((dat.getD c0 []).take nbytes) else b)
      :: push_channels (c0 + 1) bs dat nbytes channels

/-- `transcription_filter_filter_audio`: the audio ingest entry point.  Returns
the (possibly unchanged) filter state and the returned audio packet.  A null
`audio` yields a null return; a null `data` passes the packet through; an
inactive filter, a null whisper context or a null mutex pass the packet
through untouched; otherwise every channel's samples and one metadata record
are appended under the buffer lock and the original packet is returned. -/
def transcription_filter_filter_audio (data : Option transcription_filter_data)
    (audio : Option obs_audio_data) :
    Option transcription_filter_data × Option obs_audio_data :=
  match audio with
  | none => (data, none)
  | some a =>
    match data with
    | none => (none, some a)
    | some gf =>
      if gf.active = false then (some gf, some a)
      else if gf.whisper_context = none then (some gf, some a)
      else if gf.whisper_buf_mutex = false ∨ gf.whisper_ctx_mutex = false then
        (some gf, some a)
      else
        (some { gf with
            input_buffers :=
              push_channels 0 gf.input_buffers a.data (a.frames * sizeof_float) gf.channels,
            info_buffer := gf.info_buffer ++ [⟨a.frames, a.timestamp⟩] },
         some a)

/-- Feeding a sequence of packets through `transcription_filter_filter_audio`,
keeping the state (the returned state is always present when the input state
is present; `getD` only totalizes). -/
def process_packets (gf : transcription_filter_data) (ps : List obs_audio_data) :
    transcription_filter_data :=
  ps.foldl (fun g a => ((transcription_filter_filter_audio (some g) (some a)).1).getD g) gf

/-- Observable actions of the filter, recorded in program order: lock
acquisitions/releases, engine-handle lifecycle steps, thread lifecycle steps,
resource frees, sink writes and error reports. -/
inductive Event where
  | lock_ctx
  | unlock_ctx
  | lock_buf
  | unlock_buf
  | lock_text
  | unlock_text
  | whisper_free (ctx : Nat)
  | null_context
  | notify_cv
  | join_thread (tid : Nat)
  | init_context
  | start_thread (tid : Nat)
  | download_model (path : String)
  | release_text_source
  | bfree_text_source_name
  | destroy_resampler
  | free_copy_buffers
  | free_input_buffer (c : Nat)
  | free_info_buffer
  | delete_buf_mutex
  | delete_ctx_mutex
  | delete_cv
  | delete_text_source_mutex
  | bfree_state
  | log_error
  | caption (s : String)
  | file_write (path s : String)
  | set_source_text (src : Nat) (s : String)
  | acquire_attempt
deriving DecidableEq, Repr

/-- Events of the engine-handle / worker-thread swap protocol (freeing or
nulling the handle, notifying the condition variable, joining or starting the
worker, creating a handle, requesting a download). -/
def isSwapEvent : Event → Bool
  | .whisper_free _ => true
  | .null_context => true
  | .notify_cv => true
  | .join_thread _ => true
  | .init_context => true
  | .start_thread _ => true
  | .download_model _ => true
  | _ => false

/-- Is this event a write of the file sink. -/
def is_file_write_event : Event → Bool
  | .file_write _ _ => true
  | _ => false

/-- `transcription_filter_destroy` (lines 104-154), as its trace of observable
actions: null-and-notify the engine handle under the engine lock, join the
worker thread if joinable, release the sink state and resampler, then free the
copy buffers, ring buffers, metadata queue, mutexes, condition variable and
the state itself. -/
def transcription_filter_destroy (gf : transcription_filter_data) : List Event :=
  ([Event.lock_ctx] ++
    (match gf.whisper_context with
     | some c => [Event.whisper_free c, Event.null_context, Event.notify_cv]
     | none => []) ++
    [Event.unlock_ctx]) ++
  (match gf.whisper_thread with
   | some t => [Event.join_thread t]
   | none => []) ++
  (if gf.text_source_name.isSome then [Event.bfree_text_source_name] else []) ++
  (if gf.text_source.isSome then [Event.release_text_source] else []) ++
  (if gf.resampler.isSome then [Event.destroy_resampler] else []) ++
  ([Event.lock_buf, Event.free_copy_buffers] ++
    (List.range gf.channels).map Event.free_input_buffer ++
    [Event.unlock_buf]) ++
  [Event.free_info_buffer, Event.delete_buf_mutex, Event.delete_ctx_mutex,
   Event.delete_cv, Event.delete_text_source_mutex, Event.bfree_state]

/-- The settings object read by `transcription_filter_update`
(`obs_data_get_*` accesses), one field per named option.  `subtitle_sources`
is `Option String` because the code defends against a null string pointer;
floating-point options are modelled as exact rationals. -/
structure obs_data where
  log_level : Int
  vad_enabled : Bool
  log_words : Bool
  caption_to_stream : Bool
  subtitle_sources : Option String
  subtitle_output_filename : Option String
  whisper_model_path : String
  whisper_sampling_method : Int
  whisper_language_select : String
  initial_prompt : String
  n_threads : Int
  n_max_text_ctx : Int
  translate : Bool
  no_context : Bool
  single_segment : Bool
  print_special : Bool
  print_progress : Bool
  print_realtime : Bool
  print_timestamps : Bool
  token_timestamps : Bool
  thold_pt : Rat
  thold_ptsum : Rat
  max_len : Int
  split_on_word : Bool
  max_tokens : Int
  speed_up : Bool
  suppress_blank : Bool
  suppress_non_speech_tokens : Bool
  temperature : Rat
  max_initial_ts : Rat
  length_penalty : Rat
deriving DecidableEq, Repr

/-- External collaborators of create/update: whether a model file is locally
present (`check_if_model_exists`), the outcome of engine creation
(`init_whisper_context`), identities for freshly started worker threads, the
engine's `whisper_full_default_params`, the window / overlap durations
(`BUFFER_SIZE_MSEC`, `OVERLAP_SIZE_MSEC` from `whisper-processing.h`), and
the host audio parameters used at creation. -/
structure Env where
  model_exists : String → Bool
  init_ctx : String → Option Nat
  tid : Nat
  create_tid : Nat
  wfdp : Int → whisper_full_params
  buffer_size_msec : Nat
  overlap_size_msec : Nat
  channels : Nat
  sample_rate : Nat
  resampler_id : Nat

/-- Modelled from the spec: `init_whisper_context` (defined in
`whisper-processing.cpp`, which is not among the given sources) creates the
engine handle from a model path; per the spec's failure handling, on a
malformed or incompatible weight file it fails and the failure is reported as
an error ("creation of the engine handle may fail ... the filter reports an
error").  The creation outcome itself is the external parameter `init_ctx`. -/
def init_whisper_context_model (init_ctx : String → Option Nat) (path : String) :
    Option Nat × List Event :=
  match init_ctx path with
  | some c => (some c, [Event.init_context])
  | none => (none, [Event.init_context, Event.log_error])

/-- Lines 238-240: the newly selected text source name is "not valid" when it
is null, `"none"`, `"(null)"`, `"text_file"` or empty. -/
def invalid_subtitle_source_name : Option String → Bool
  | none => true
  | some nm => nm == "none" || nm == "(null)" || nm == "text_file" || nm.length == 0

/-- Result of one phase of `transcription_filter_update`: new state, trace,
and whether the phase hit one of the defensive early `return`s. -/
structure UpdateStep where
  gf : transcription_filter_data
  trace : List Event
  early : Bool
deriving DecidableEq, Repr

/-- Lines 242-250 and 269-277: detach the current weak text source under the
sink lock, remembering it for the later release.  `none` models the defensive
early return taken when the sink mutex is null while a source is held. -/
def detach_text_source (gf : transcription_filter_data) :
    Option (Option Nat × transcription_filter_data × List Event) :=
  match gf.text_source with
  | some w =>
    if gf.text_source_mutex = false then none
    else some (some w, { gf with text_source := none },
               [Event.lock_text, Event.unlock_text])
  | none => some (none, gf, [])

/-- Lines 251-254 / 278-282: free the stored text source name if present. -/
def free_text_source_name (gf : transcription_filter_data) :
    transcription_filter_data × List Event :=
  if gf.text_source_name.isSome then
    ({ gf with text_source_name := none }, [Event.bfree_text_source_name])
  else (gf, [])

/-- Lines 233-290 of `transcription_filter_update`: the text-source /
file-sink reconfiguration phase. -/
def update_text_source_part (gf : transcription_filter_data) (s : obs_data) :
    UpdateStep :=
  let new_name := s.subtitle_sources
  if invalid_subtitle_source_name new_name then
    match detach_text_source gf with
    | none => ⟨gf, [Event.log_error], true⟩
    | some (old_weak, gf1, tr1) =>
      let r2 := free_text_source_name gf1
      let gf3 := { r2.1 with output_file_path := "" }
      let gf4 :=
        if new_name = some "text_file" then
          match s.subtitle_output_filename with
          | some p => if p.length > 0 then { gf3 with output_file_path := p } else gf3
          | none => gf3
        else gf3
      let tr3 := if old_weak.isSome then [Event.release_text_source] else []
      ⟨gf4, tr1 ++ r2.2 ++ tr3, false⟩
  else
    match new_name with
    | some nm =>
      if gf.text_source_name = none ∨ gf.text_source_name ≠ some nm then
        match detach_text_source gf with
        | none => ⟨gf, [Event.log_error], true⟩
        | some (old_weak, gf1, tr1) =>
          let r2 := free_text_source_name gf1
          let gf3 := { r2.1 with text_source_name := some nm }
          let tr3 := if old_weak.isSome then [Event.release_text_source] else []
          ⟨gf3, tr1 ++ r2.2 ++ tr3, false⟩
      else ⟨gf, [], false⟩
    | none => ⟨gf, [], false⟩

/-- Lines 310-335: after the old context is released, join the previous worker
if joinable, store the new model path, then either request an asynchronous
download (model absent locally) or create the context and start a fresh
worker synchronously. -/
def swap_model_rest (env : Env) (gf : transcription_filter_data)
    (new_path : String) : transcription_filter_data × List Event :=
  let r1 :=
    match gf.whisper_thread with
    | some t => ({ gf with whisper_thread := none }, [Event.join_thread t])
    | none => (gf, ([] : List Event))
  let gf2 := { r1.1 with whisper_model_path := new_path }
  if env.model_exists new_path = false then
    (gf2, r1.2 ++ [Event.log_error, Event.download_model new_path])
  else
    let r2 := init_whisper_context_model env.init_ctx new_path
    ({ gf2 with whisper_context := r2.1, whisper_thread := some env.tid },
     r1.2 ++ r2.2 ++ [Event.start_thread env.tid])

/-- Lines 292-336 of `transcription_filter_update`: the model-swap phase.  A
changed path releases the old context under the engine lock (nulling it and
notifying the condition variable), joins the old worker and loads/starts the
new one; an unchanged path does nothing. -/
def update_model_part (env : Env) (gf : transcription_filter_data)
    (s : obs_data) : UpdateStep :=
  let new_model_path := s.whisper_model_path
  if new_model_path = gf.whisper_model_path then ⟨gf, [], false⟩
  else
    match gf.whisper_context with
    | some c =>
      if gf.whisper_ctx_mutex = false ∨ gf.wshiper_thread_cv = false then
        ⟨gf, [Event.log_error], true⟩
      else
        let r := swap_model_rest env { gf with whisper_context := none } new_model_path
        ⟨r.1, [Event.lock_ctx, Event.whisper_free c, Event.null_context,
               Event.notify_cv, Event.unlock_ctx] ++ r.2, false⟩
    | none =>
      let r := swap_model_rest env gf new_model_path
      ⟨r.1, r.2, false⟩

/-- The completion callback handed to `download_model_with_ui_dialog`
(lines 319-329): on download status 0 create the context from the stored
model path and start a fresh worker thread, otherwise report the failure. -/
def model_download_callback (env : Env) (gf : transcription_filter_data)
    (download_status : Int) : transcription_filter_data × List Event :=
  if download_status = 0 then
    let r := init_whisper_context_model env.init_ctx gf.whisper_model_path
    ({ gf with whisper_context := r.1, whisper_thread := some env.tid },
     r.2 ++ [Event.start_thread env.tid])
  else (gf, [Event.log_error])

/-- Lines 346-372: the full parameter set written under the engine lock,
starting from `whisper_full_default_params(sampling_method)`. -/
def whisper_params_from (env : Env) (s : obs_data) : whisper_full_params :=
  { env.wfdp s.whisper_sampling_method with
    duration_ms := env.buffer_size_msec
    language := s.whisper_language_select
    initial_prompt := s.initial_prompt
    n_threads := s.n_threads
    n_max_text_ctx := s.n_max_text_ctx
    translate := s.translate
    no_context := s.no_context
    single_segment := s.single_segment
    print_special := s.print_special
    print_progress := s.print_progress
    print_realtime := s.print_realtime
    print_timestamps := s.print_timestamps
    token_timestamps := s.token_timestamps
    thold_pt := s.thold_pt
    thold_ptsum := s.thold_ptsum
    max_len := s.max_len
    split_on_word := s.split_on_word
    max_tokens := s.max_tokens
    speed_up := s.speed_up
    suppress_blank := s.suppress_blank
    suppress_non_speech_tokens := s.suppress_non_speech_tokens
    temperature := s.temperature
    max_initial_ts := s.max_initial_ts
    length_penalty := s.length_penalty }

/-- Lines 338-373 of `transcription_filter_update`: the parameter phase,
guarded by the engine lock (early return when the mutex is null). -/
def update_params_part (env : Env) (gf : transcription_filter_data)
    (s : obs_data) : transcription_filter_data × List Event :=
  if gf.whisper_ctx_mutex = false then (gf, [Event.log_error])
  else ({ gf with whisper_params := whisper_params_from env s },
        [Event.lock_ctx, Event.unlock_ctx])

/-- Lines 228-231: the scalar options written unconditionally at the top of
`transcription_filter_update`. -/
def apply_scalar_settings (gf : transcription_filter_data) (s : obs_data) :
    transcription_filter_data :=
  { gf with
    log_level := s.log_level
    vad_enabled := s.vad_enabled
    log_words := s.log_words
    caption_to_stream := s.caption_to_stream }

/-- `transcription_filter_update` (lines 222-373): scalar options, then the
text-source phase, then the model-swap phase, then the parameter phase, each
aborting the rest on a defensive early return. -/
def transcription_filter_update (env : Env) (gf : transcription_filter_data)
    (s : obs_data) : transcription_filter_data × List Event :=
  let r1 := update_text_source_part (apply_scalar_settings gf s) s
  if r1.early then (r1.gf, r1.trace)
  else
    let r2 := update_model_part env r1.gf s
    if r2.early then (r2.gf, r1.trace ++ r2.trace)
    else
      let r3 := update_params_part env r2.gf s
      (r3.1, r1.trace ++ r2.trace ++ r3.2)

/-- The all-zero `whisper_full_params`, as produced by `bzalloc` of the state
struct. -/
def whisper_full_params_zeroed : whisper_full_params :=
  { strategy := 0, duration_ms := 0, language := "", initial_prompt := ""
    n_threads := 0, n_max_text_ctx := 0, translate := false, no_context := false
    single_segment := false, print_special := false, print_progress := false
    print_realtime := false, print_timestamps := false, token_timestamps := false
    thold_pt := 0, thold_ptsum := 0, max_len := 0, split_on_word := false
    max_tokens := 0, speed_up := false, suppress_blank := false
    suppress_non_speech_tokens := false, temperature := 0, max_initial_ts := 0
    length_penalty := 0 }

/-- `transcription_filter_create` (lines 375-445): zero-allocate the state,
initialise buffers and copy buffers, load the model (aborting with a null
return and an error when engine creation fails, so no partially-initialised
state is handed to the pipeline), then set up resampler, synchronisation
primitives and sink state, run `update`, start the worker and mark the filter
active.  (The host `filter` pointer held in `gf->context` plays no role in
the verified properties and is not modelled.) -/
def transcription_filter_create (env : Env) (settings : obs_data) :
    Option transcription_filter_data × List Event :=
  let gf : transcription_filter_data :=
    { channels := env.channels
      sample_rate := env.sample_rate
      frames := env.sample_rate * env.buffer_size_msec / 1000
      last_num_frames := 0
      input_buffers := List.replicate MAX_AUDIO_CHANNELS circlebuf_init
      info_buffer := []
      copy_buffers_alloc := true
      whisper_model_path := settings.whisper_model_path
      whisper_context := none
      overlap_ms := 0, overlap_frames := 0, resampler := none
      whisper_buf_mutex := false, whisper_ctx_mutex := false
      wshiper_thread_cv := false, text_source_mutex := false
      text_source := none, text_source_name := none, output_file_path := ""
      whisper_thread := none, active := false, log_level := 0
      vad_enabled := false, log_words := false, caption_to_stream := false
      whisper_params := whisper_full_params_zeroed }
  let r0 := init_whisper_context_model env.init_ctx settings.whisper_model_path
  match r0.1 with
  | none => (none, r0.2 ++ [Event.log_error])
  | some c =>
    let gf1 := { gf with
      whisper_context := some c
      overlap_ms := env.overlap_size_msec
      overlap_frames := env.sample_rate * env.overlap_size_msec / 1000
      resampler := some env.resampler_id
      whisper_buf_mutex := true, whisper_ctx_mutex := true
      wshiper_thread_cv := true, text_source_mutex := true
      text_source := none
      text_source_name := settings.subtitle_sources
      output_file_path := "" }
    let r2 := transcription_filter_update env gf1 settings
    (some { r2.1 with whisper_thread := some env.create_tid, active := true },
     r0.2 ++ r2.2 ++ [Event.start_thread env.create_tid])

/-- The host-object world seen by the output router: name-to-source lookup
(`obs_get_source_by_name`), weak-reference acquisition
(`obs_source_get_weak_source`), weak-to-strong promotion
(`obs_weak_source_get_source`, `none` when the element was deleted) and the
frontend streaming output. -/
structure ObsWorld where
  get_source_by_name : String → Option Nat
  get_weak_source : Nat → Option Nat
  weak_source_get_source : Nat → Option Nat
  streaming_output : Option Nat

/-- `acquire_weak_text_source_ref` (lines 156-177): under the sink lock, look
the configured name up and cache a weak reference to it, reporting an error
when the name is null, the element is not found, or the weak reference cannot
be taken. -/
def acquire_weak_text_source_ref (w : ObsWorld) (gf : transcription_filter_data) :
    transcription_filter_data × List Event :=
  match gf.text_source_name with
  | none => (gf, [Event.log_error])
  | some nm =>
    match w.get_source_by_name nm with
    | some src =>
      match w.get_weak_source src with
      | some wk => ({ gf with text_source := some wk },
                    [Event.lock_text, Event.unlock_text])
      | none => ({ gf with text_source := none },
                 [Event.lock_text, Event.log_error, Event.unlock_text])
    | none => (gf, [Event.lock_text, Event.log_error, Event.unlock_text])

/-- `set_text_callback` (lines 179-220): publish one recognised text segment.
Optionally forward to the streaming caption channel; then either truncate-write
the file sink (file path configured and no text-element name), or resolve the
cached weak text-source reference (re-acquiring it only when none is cached,
recorded as `acquire_attempt`) and set the element's text, reporting an error
and dropping the publish when the element is unavailable. -/
def set_text_callback (w : ObsWorld) (gf : transcription_filter_data)
    (str : String) : transcription_filter_data × List Event :=
  let cap : List Event :=
    if gf.caption_to_stream then
      match w.streaming_output with
      | some _ => [Event.caption str]
      | none => []
    else []
  if gf.output_file_path ≠ "" ∧ gf.text_source_name = none then
    (gf, cap ++ [Event.file_write gf.output_file_path str])
  else
    if gf.text_source_mutex = false then (gf, cap ++ [Event.log_error])
    else
      let r1 :=
        if gf.text_source = none then
          let r := acquire_weak_text_source_ref w gf
          (r.1, [Event.acquire_attempt] ++ r.2)
        else (gf, ([] : List Event))
      match r1.1.text_source with
      | none => (r1.1, cap ++ r1.2 ++ [Event.lock_text, Event.log_error, Event.unlock_text])
      | some wk =>
        match w.weak_source_get_source wk with
        | none => (r1.1, cap ++ r1.2 ++ [Event.lock_text, Event.log_error, Event.unlock_text])
        | some target =>
          (r1.1, cap ++ r1.2 ++ [Event.lock_text, Event.set_source_text target str,
                                 Event.unlock_text])

/-- The contents of the file at `p` after applying a list of published
effects, starting from `c` (the file sink truncates: each write replaces the
whole contents). -/
def file_contents_after (c : Option String) (p : String) : List Event → Option String
  | [] => c
  | e :: rest =>
    match e with
    | .file_write q s => file_contents_after (if q = p then some s else c) p rest
    | _ => file_contents_after c p rest

/-- A default value as stored by the `obs_data_set_default_*` family. -/
inductive obs_data_value where
  | b (v : Bool)
  | i (v : Int)
  | s (v : String)
  | d (v : Rat)
deriving DecidableEq, Repr

/-- `transcription_filter_defaults` (lines 463-497): the named options and the
default values the function stores, in call order. -/
def transcription_filter_defaults : List (String × obs_data_value) :=
  [("vad_enabled", .b true),
   ("log_level", .i LOG_DEBUG),
   ("log_words", .b true),
   ("caption_to_stream", .b false),
   ("whisper_model_path", .s "models/ggml-tiny.en.bin"),
   ("whisper_language_select", .s "en"),
   ("subtitle_sources", .s "none"),
   ("whisper_sampling_method", .i WHISPER_SAMPLING_BEAM_SEARCH),
   ("initial_prompt", .s ""),
   ("n_threads", .i 4),
   ("n_max_text_ctx", .i 16384),
   ("translate", .b false),
   ("no_context", .b true),
   ("single_segment", .b true),
   ("print_special", .b false),
   ("print_progress", .b false),
   ("print_realtime", .b false),
   ("print_timestamps", .b false),
   ("token_timestamps", .b false),
   ("thold_pt", .d 0.01),
   ("thold_ptsum", .d 0.01),
   ("max_len", .i 0),
   ("split_on_word", .b false),
   ("max_tokens", .i 32),
   ("speed_up", .b false),
   ("suppress_blank", .b false),
   ("suppress_non_speech_tokens", .b true),
   ("temperature", .d 0.5),
   ("max_initial_ts", .d 1.0),
   ("length_penalty", .d (-1.0))]

/-- Appending bytes grows the buffer by exactly the byte count. -/
lemma circlebuf_push_back_size (b : circlebuf) (bytes : List Nat) :
    (circlebuf_push_back b bytes).size = b.size + bytes.length := by
  simp [circlebuf_push_back, circlebuf.size]

lemma push_channels_length (c0 : Nat) (bufs : List circlebuf) (dat : List (List Nat))
    (nbytes channels : Nat) :
    (push_channels c0 bufs dat nbytes channels).length = bufs.length := by
  induction bufs generalizing c0 with
  | nil => simp [push_channels]
  | cons b bs ih => simp [push_channels, ih]

lemma push_channels_getD (c0 c : Nat) (bufs : List circlebuf) (dat : List (List Nat))
    (nbytes channels : Nat) (h : c < bufs.length) :
    (push_channels c0 bufs dat nbytes channels).getD c circlebuf_init =
      if c0 + c < channels then
        circlebuf_push_back (bufs.getD c circlebuf_init) ((dat.getD (c0 + c) []).take nbytes)
      else bufs.getD c circlebuf_init := by
  induction bufs generalizing c0 c with
  | nil => simp at h
  | cons b bs ih =>
    cases c with
    | zero => simp [push_channels]
    | succ n =>
      have hn : n < bs.length := by simpa using h
      have := ih (c0 + 1) n hn
      simp only [push_channels, List.getD_cons_succ, this]
      have harith : c0 + 1 + n = c0 + (n + 1) := by omega
      rw [harith]

/-- One successful ingest step: with the filter active, a live whisper context
and both mutexes present, the state is updated by pushing every channel and
one info record. -/
lemma filter_audio_push (gf : transcription_filter_data) (a : obs_audio_data)
    (hact : gf.active = true) (hctx : gf.whisper_context ≠ none)
    (hm1 : gf.whisper_buf_mutex = true) (hm2 : gf.whisper_ctx_mutex = true) :
    transcription_filter_filter_audio (some gf) (some a) =
      (some { gf with
        input_buffers :=
          push_channels 0 gf.input_buffers a.data (a.frames * sizeof_float) gf.channels,
        info_buffer := gf.info_buffer ++ [⟨a.frames, a.timestamp⟩] },
       some a) := by
  simp [transcription_filter_filter_audio, hact, hctx, hm1, hm2]

/-- C2: while the filter is active with a live engine handle, every packet push
appends exactly `frames * sizeof(float)` bytes to each of the `channels` ring
buffers and exactly one metadata record, so across any packet sequence the
per-channel byte growth is the sum of frame counts times the sample size and
the metadata-queue growth is the number of pushes (lock-step invariant). -/
theorem ring_buffer_info_lockstep (gf : transcription_filter_data)
    (ps : List obs_audio_data)
    (hact : gf.active = true) (hctx : gf.whisper_context ≠ none)
    (hm1 : gf.whisper_buf_mutex = true) (hm2 : gf.whisper_ctx_mutex = true)
    (hch : gf.channels ≤ gf.input_buffers.length)
    (hwf : ∀ a ∈ ps, ∀ c, c < gf.channels →
      a.frames * sizeof_float ≤ (a.data.getD c []).length) :
    (∀ c, c < gf.channels →
      ((process_packets gf ps).input_buffers.getD c circlebuf_init).size
        = (gf.input_buffers.getD c circlebuf_init).size
          + (ps.map (fun a => a.frames)).sum * sizeof_float)
    ∧ (process_packets gf ps).info_buffer.length
        = gf.info_buffer.length + ps.length := by
  induction ps generalizing gf with
  | nil => simp [process_packets]
  | cons a rest ih =>
    have hstep := filter_audio_push gf a hact hctx hm1 hm2
    have hfold :
        process_packets gf (a :: rest) =
          process_packets
            { gf with
              input_buffers :=
                push_channels 0 gf.input_buffers a.data (a.frames * sizeof_float) gf.channels,
              info_buffer := gf.info_buffer ++ [⟨a.frames, a.timestamp⟩] } rest := by
      simp [process_packets, hstep]
    set gf1 : transcription_filter_data :=
      { gf with
        input_buffers :=
          push_channels 0 gf.input_buffers a.data (a.frames * sizeof_float) gf.channels,
        info_buffer := gf.info_buffer ++ [⟨a.frames, a.timestamp⟩] } with hgf1
    have hch1 : gf1.channels ≤ gf1.input_buffers.length := by
      simpa [hgf1, push_channels_length] using hch
    have hwf1 : ∀ b ∈ rest, ∀ c, c < gf1.channels →
        b.frames * sizeof_float ≤ (b.data.getD c []).length := by
      intro b hb c hc
      exact hwf b (List.mem_cons_of_mem a hb) c hc
    have hact1 : gf1.active = true := by rw [hgf1]; exact hact
    have hctx1 : gf1.whisper_context ≠ none := by rw [hgf1]; exact hctx
    have hm1a : gf1.whisper_buf_mutex = true := by rw [hgf1]; exact hm1
    have hm2a : gf1.whisper_ctx_mutex = true := by rw [hgf1]; exact hm2
    have hrec := ih gf1 hact1 hctx1 hm1a hm2a hch1 hwf1
    have hchan1 : gf1.channels = gf.channels := by rw [hgf1]
    constructor
    · intro c hc
      have hclen : c < gf.input_buffers.length := lt_of_lt_of_le hc hch
      have hgetD :
          gf1.input_buffers.getD c circlebuf_init =
            circlebuf_push_back (gf.input_buffers.getD c circlebuf_init)
              ((a.data.getD c []).take (a.frames * sizeof_float)) := by
        have := push_channels_getD 0 c gf.input_buffers a.data
          (a.frames * sizeof_float) gf.channels hclen
        simp only [Nat.zero_add] at this
        rw [hgf1]
        simpa [hc] using this
      have hsz := hrec.1 c (hchan1 ▸ hc)
      have htake : ((a.data.getD c []).take (a.frames * sizeof_float)).length
          = a.frames * sizeof_float := by
        rw [List.length_take]
        exact Nat.min_eq_left (hwf a (List.mem_cons_self a rest) c hc)
      rw [hfold, hsz, hgetD, circlebuf_push_back_size, htake]
      simp only [List.map_cons, List.sum_cons, Nat.add_mul]
      omega
    · have hinfo1 : gf1.info_buffer.length = gf.info_buffer.length + 1 := by
        rw [hgf1]; simp
      rw [hfold, hrec.2, hinfo1]
      simp
      omega

/-- C3: when the filter is inactive or the engine handle is null the ingest
is a pure pass-through (same packet back, state untouched; pushing any number
of packets while inactive changes nothing), and in every case with a live
state pointer the returned packet is the original one. -/
theorem passthrough_when_inactive_or_no_engine (gf : transcription_filter_data)
    (a : obs_audio_data) (ps : List obs_audio_data) :
    ((gf.active = false ∨ gf.whisper_context = none) →
        transcription_filter_filter_audio (some gf) (some a) = (some gf, some a))
    ∧ (gf.active = false → process_packets gf ps = gf)
    ∧ (∀ d, (transcription_filter_filter_audio d (some a)).2 = some a) := by
  refine ⟨?_, ?_, ?_⟩
  · rintro (h | h) <;> simp [transcription_filter_filter_audio, h]
  · intro h
    induction ps with
    | nil => rfl
    | cons b rest ih =>
      simpa [process_packets, transcription_filter_filter_audio, h] using ih
  · intro d
    match d with
    | none => rfl
    | some g =>
      simp only [transcription_filter_filter_audio]
      split
      · rfl
      · split
        · rfl
        · split <;> rfl

/-- C10: the audio entry point is total over null inputs: a null packet yields
a null return (state untouched), and a null filter-state pointer yields the
packet back unchanged. -/
theorem null_boundary_total (d : Option transcription_filter_data)
    (a : obs_audio_data) :
    transcription_filter_filter_audio d none = (d, none)
    ∧ transcription_filter_filter_audio none (some a) = (none, some a) :=
  ⟨rfl, rfl⟩

/-- Pass-through of the ingest path whenever the engine handle is null. -/
lemma filter_audio_passthrough_no_ctx (gf : transcription_filter_data)
    (a : obs_audio_data) (h : gf.whisper_context = none) :
    transcription_filter_filter_audio (some gf) (some a) = (some gf, some a) := by
  simp [transcription_filter_filter_audio, h]

/-- C4: destruction first nulls the engine handle and notifies the condition
variable under the engine lock, then joins the worker thread, and only after
the join does it free the copy buffers, the per-channel ring buffers, the
metadata queue, the mutexes and the condition variable: the destroy trace
starts with exactly lock/free/null/notify/unlock/join, and every release of a
worker-visible resource lies strictly after the join. -/
theorem destroy_joins_worker_before_frees (gf : transcription_filter_data)
    (c t : Nat) (hc : gf.whisper_context = some c)
    (ht : gf.whisper_thread = some t) :
    ∃ post, transcription_filter_destroy gf =
        [Event.lock_ctx, Event.whisper_free c, Event.null_context,
         Event.notify_cv, Event.unlock_ctx, Event.join_thread t] ++ post
      ∧ Event.free_copy_buffers ∈ post
      ∧ (∀ i, i < gf.channels → Event.free_input_buffer i ∈ post)
      ∧ Event.free_info_buffer ∈ post
      ∧ Event.delete_buf_mutex ∈ post
      ∧ Event.delete_ctx_mutex ∈ post
      ∧ Event.delete_cv ∈ post
      ∧ Event.delete_text_source_mutex ∈ post := by
  refine ⟨(if gf.text_source_name.isSome then [Event.bfree_text_source_name] else []) ++
      (if gf.text_source.isSome then [Event.release_text_source] else []) ++
      (if gf.resampler.isSome then [Event.destroy_resampler] else []) ++
      ([Event.lock_buf, Event.free_copy_buffers] ++
        (List.range gf.channels).map Event.free_input_buffer ++ [Event.unlock_buf]) ++
      [Event.free_info_buffer, Event.delete_buf_mutex, Event.delete_ctx_mutex,
       Event.delete_cv, Event.delete_text_source_mutex, Event.bfree_state],
    ?_, ?_, ?_, ?_, ?_, ?_, ?_, ?_⟩
  · simp [transcription_filter_destroy, hc, ht]
  · simp
  · intro i hi
    simp [hi]
  · simp
  · simp
  · simp
  · simp
  · simp

/-- The scalar phase touches no whisper or sink-lock state. -/
lemma apply_scalar_settings_fields (gf : transcription_filter_data) (s : obs_data) :
    (apply_scalar_settings gf s).whisper_context = gf.whisper_context
    ∧ (apply_scalar_settings gf s).whisper_thread = gf.whisper_thread
    ∧ (apply_scalar_settings gf s).whisper_model_path = gf.whisper_model_path
    ∧ (apply_scalar_settings gf s).whisper_ctx_mutex = gf.whisper_ctx_mutex
    ∧ (apply_scalar_settings gf s).wshiper_thread_cv = gf.wshiper_thread_cv
    ∧ (apply_scalar_settings gf s).text_source_mutex = gf.text_source_mutex :=
  ⟨rfl, rfl, rfl, rfl, rfl, rfl⟩

/-- A successful detach step preserves all whisper/engine state and emits no
engine/worker lifecycle event. -/
lemma detach_text_source_fields (gf : transcription_filter_data)
    (ow : Option Nat) (gf1 : transcription_filter_data) (tr1 : List Event)
    (h : detach_text_source gf = some (ow, gf1, tr1)) :
    gf1.whisper_context = gf.whisper_context
    ∧ gf1.whisper_thread = gf.whisper_thread
    ∧ gf1.whisper_model_path = gf.whisper_model_path
    ∧ gf1.whisper_ctx_mutex = gf.whisper_ctx_mutex
    ∧ gf1.wshiper_thread_cv = gf.wshiper_thread_cv
    ∧ gf1.text_source_name = gf.text_source_name
    ∧ tr1.filter (fun e => isSwapEvent e) = [] := by
  unfold detach_text_source at h
  split at h
  · split at h
    · exact absurd h (by simp)
    · rw [Option.some.injEq, Prod.mk.injEq, Prod.mk.injEq] at h
      obtain ⟨-, h2, h3⟩ := h
      subst h2
      subst h3
      simp [isSwapEvent]
  · rw [Option.some.injEq, Prod.mk.injEq, Prod.mk.injEq] at h
    obtain ⟨-, h2, h3⟩ := h
    subst h2
    subst h3
    simp [isSwapEvent]

/-- With the sink mutex allocated, the detach step never early-returns. -/
lemma detach_text_source_some (gf : transcription_filter_data)
    (h : gf.text_source_mutex = true) :
    detach_text_source gf ≠ none := by
  unfold detach_text_source
  split
  · simp [h]
  · simp

/-- Freeing the stored sink name preserves all whisper/engine state and emits
no engine/worker lifecycle event. -/
lemma free_text_source_name_fields (gf : transcription_filter_data) :
    (free_text_source_name gf).1.whisper_context = gf.whisper_context
    ∧ (free_text_source_name gf).1.whisper_thread = gf.whisper_thread
    ∧ (free_text_source_name gf).1.whisper_model_path = gf.whisper_model_path
    ∧ (free_text_source_name gf).1.whisper_ctx_mutex = gf.whisper_ctx_mutex
    ∧ (free_text_source_name gf).1.wshiper_thread_cv = gf.wshiper_thread_cv
    ∧ (free_text_source_name gf).2.filter (fun e => isSwapEvent e) = [] := by
  unfold free_text_source_name
  split <;> simp [isSwapEvent]

/-- The text-source phase never touches the engine handle, the worker thread,
the model path, the engine lock or the condition variable, and emits no
engine/worker lifecycle event. -/
lemma update_text_source_part_fields (gf : transcription_filter_data)
    (s : obs_data) :
    (update_text_source_part gf s).gf.whisper_context = gf.whisper_context
    ∧ (update_text_source_part gf s).gf.whisper_thread = gf.whisper_thread
    ∧ (update_text_source_part gf s).gf.whisper_model_path = gf.whisper_model_path
    ∧ (update_text_source_part gf s).gf.whisper_ctx_mutex = gf.whisper_ctx_mutex
    ∧ (update_text_source_part gf s).gf.wshiper_thread_cv = gf.wshiper_thread_cv
    ∧ (update_text_source_part gf s).trace.filter (fun e => isSwapEvent e) = [] := by
  simp only [update_text_source_part]
  split
  · rcases hd : detach_text_source gf with _ | ⟨ow, gf1, tr1⟩
    · simp [hd, isSwapEvent]
    · obtain ⟨d1, d2, d3, d4, d5, d6, d7⟩ := detach_text_source_fields gf ow gf1 tr1 hd
      obtain ⟨f1, f2, f3, f4, f5, f6⟩ := free_text_source_name_fields gf1
      simp only [hd]
      refine ⟨?_, ?_, ?_, ?_, ?_, ?_⟩ <;>
        (repeat' split) <;>
        (first
          | rfl
          | simp_all [List.filter_append, isSwapEvent])
  · rcases hnm : s.subtitle_sources with _ | nm
    · simp
    · simp only []
      split
      · rcases hd : detach_text_source gf with _ | ⟨ow, gf1, tr1⟩
        · simp [hd, isSwapEvent]
        · obtain ⟨d1, d2, d3, d4, d5, d6, d7⟩ := detach_text_source_fields gf ow gf1 tr1 hd
          obtain ⟨f1, f2, f3, f4, f5, f6⟩ := free_text_source_name_fields gf1
          simp only [hd]
          refine ⟨?_, ?_, ?_, ?_, ?_, ?_⟩ <;>
            (repeat' split) <;>
            (first
              | rfl
              | simp_all [List.filter_append, isSwapEvent])
      · simp [isSwapEvent]

/-- With the sink mutex allocated, the text-source phase never takes its
defensive early return. -/
lemma update_text_source_part_not_early (gf : transcription_filter_data)
    (s : obs_data) (h : gf.text_source_mutex = true) :
    (update_text_source_part gf s).early = false := by
  simp only [update_text_source_part]
  split
  · rcases hd : detach_text_source gf with _ | ⟨ow, gf1, tr1⟩
    · exact absurd hd (detach_text_source_some gf h)
    · simp only [hd]
  · rcases hnm : s.subtitle_sources with _ | nm
    · simp
    · simp only []
      split
      · rcases hd : detach_text_source gf with _ | ⟨ow, gf1, tr1⟩
        · exact absurd hd (detach_text_source_some gf h)
        · simp only [hd]
      · rfl

/-- An unchanged model path makes the model-swap phase a no-op. -/
lemma update_model_part_same_path (env : Env) (gf : transcription_filter_data)
    (s : obs_data) (h : s.whisper_model_path = gf.whisper_model_path) :
    update_model_part env gf s = ⟨gf, [], false⟩ := by
  unfold update_model_part
  simp [h]

lemma init_whisper_context_model_filter (f : String → Option Nat) (p : String) :
    (init_whisper_context_model f p).2.filter (fun e => isSwapEvent e)
      = [Event.init_context] := by
  unfold init_whisper_context_model
  cases f p <;> simp [isSwapEvent]

lemma init_whisper_context_model_fail (f : String → Option Nat) (p : String)
    (h : f p = none) :
    init_whisper_context_model f p = (none, [Event.init_context, Event.log_error]) := by
  unfold init_whisper_context_model
  simp [h]

/-- A changed model path with a live handle, live lock/condvar, a joinable
worker and a locally present model: the swap phase's exact trace and the
resulting engine/worker state. -/
lemma update_model_part_swap (env : Env) (gf : transcription_filter_data)
    (s : obs_data) (c t : Nat)
    (hne : ¬ s.whisper_model_path = gf.whisper_model_path)
    (hctx : gf.whisper_context = some c)
    (hm : gf.whisper_ctx_mutex = true) (hcv : gf.wshiper_thread_cv = true)
    (ht : gf.whisper_thread = some t)
    (hex : env.model_exists s.whisper_model_path = true) :
    (update_model_part env gf s).trace =
        [Event.lock_ctx, Event.whisper_free c, Event.null_context,
         Event.notify_cv, Event.unlock_ctx, Event.join_thread t]
        ++ (init_whisper_context_model env.init_ctx s.whisper_model_path).2
        ++ [Event.start_thread env.tid]
    ∧ (update_model_part env gf s).early = false
    ∧ (update_model_part env gf s).gf.whisper_context
        = (init_whisper_context_model env.init_ctx s.whisper_model_path).1
    ∧ (update_model_part env gf s).gf.whisper_thread = some env.tid
    ∧ (update_model_part env gf s).gf.whisper_ctx_mutex = gf.whisper_ctx_mutex := by
  unfold update_model_part swap_model_rest
  simp [hne, hctx, hm, hcv, ht, hex]

/-- The parameter phase touches neither the engine handle nor the worker
thread, and emits no engine/worker lifecycle event. -/
lemma update_params_part_fields (env : Env) (gf : transcription_filter_data)
    (s : obs_data) :
    (update_params_part env gf s).1.whisper_context = gf.whisper_context
    ∧ (update_params_part env gf s).1.whisper_thread = gf.whisper_thread
    ∧ (update_params_part env gf s).2.filter (fun e => isSwapEvent e) = [] := by
  unfold update_params_part
  split <;> simp [isSwapEvent]

/-- Full-update decomposition for a model swap (changed path, live handle,
live engine lock and condvar, joinable worker, sink mutex allocated, model
locally present): the trace splits as a swap-event-free prefix, the exact
lock/free/null/notify/unlock/join segment, the engine-creation events, the
worker start and a swap-event-free tail; the resulting state carries the
created handle and the fresh worker. -/
lemma transcription_filter_update_swap (env : Env)
    (gf : transcription_filter_data) (s : obs_data) (c t : Nat)
    (hpath : ¬ s.whisper_model_path = gf.whisper_model_path)
    (hctx : gf.whisper_context = some c)
    (hm : gf.whisper_ctx_mutex = true) (hcv : gf.wshiper_thread_cv = true)
    (ht : gf.whisper_thread = some t)
    (htm : gf.text_source_mutex = true)
    (hex : env.model_exists s.whisper_model_path = true) :
    ∃ pre tail,
      (transcription_filter_update env gf s).2 =
          pre ++ [Event.lock_ctx, Event.whisper_free c, Event.null_context,
                  Event.notify_cv, Event.unlock_ctx, Event.join_thread t]
              ++ (init_whisper_context_model env.init_ctx s.whisper_model_path).2
              ++ [Event.start_thread env.tid] ++ tail
      ∧ pre.filter (fun e => isSwapEvent e) = []
      ∧ tail.filter (fun e => isSwapEvent e) = []
      ∧ (transcription_filter_update env gf s).1.whisper_context
          = (init_whisper_context_model env.init_ctx s.whisper_model_path).1
      ∧ (transcription_filter_update env gf s).1.whisper_thread = some env.tid := by
  obtain ⟨a1, a2, a3, a4, a5, a6⟩ := apply_scalar_settings_fields gf s
  obtain ⟨t1, t2, t3, t4, t5, t6⟩ :=
    update_text_source_part_fields (apply_scalar_settings gf s) s
  have te : (update_text_source_part (apply_scalar_settings gf s) s).early = false :=
    update_text_source_part_not_early (apply_scalar_settings gf s) s (a6.trans htm)
  obtain ⟨m1, m2, m3, m4, m5⟩ :=
    update_model_part_swap env (update_text_source_part (apply_scalar_settings gf s) s).gf
      s c t (by rw [t3, a3]; exact hpath) (by rw [t1, a1]; exact hctx)
      (by rw [t4, a4]; exact hm) (by rw [t5, a5]; exact hcv)
      (by rw [t2, a2]; exact ht) hex
  obtain ⟨p1, p2, p3⟩ :=
    update_params_part_fields env
      (update_model_part env
        (update_text_source_part (apply_scalar_settings gf s) s).gf s).gf s
  have hrun : transcription_filter_update env gf s =
      ((update_params_part env
          (update_model_part env
            (update_text_source_part (apply_scalar_settings gf s) s).gf s).gf s).1,
       (update_text_source_part (apply_scalar_settings gf s) s).trace
         ++ (update_model_part env
              (update_text_source_part (apply_scalar_settings gf s) s).gf s).trace
         ++ (update_params_part env
              (update_model_part env
                (update_text_source_part (apply_scalar_settings gf s) s).gf s).gf s).2) := by
    simp only [transcription_filter_update, te, m2, Bool.false_eq_true, if_false]
  refine ⟨(update_text_source_part (apply_scalar_settings gf s) s).trace,
    (update_params_part env
      (update_model_part env
        (update_text_source_part (apply_scalar_settings gf s) s).gf s).gf s).2,
    ?_, t6, p3, ?_, ?_⟩
  · rw [hrun]
    simp only [m1]
    simp [List.append_assoc]
  · rw [hrun]
    simp only []
    rw [p1, m3]
  · rw [hrun]
    simp only []
    rw [p2, m4]

/-- C1: a settings update that changes the model path while an engine handle
is present nulls the handle and notifies the condition variable under the
engine lock, joins the previous worker thread, and only then creates the new
handle and starts the new worker: the update trace contains the contiguous
segment lock/free/null/notify/unlock/join, and the engine/worker lifecycle
events of the whole update are exactly free, null, notify, join, create,
start - in that order, so no new worker starts before the old one is
joined. -/
theorem model_swap_joins_old_worker_first (env : Env)
    (gf : transcription_filter_data) (s : obs_data) (c t : Nat)
    (hpath : ¬ s.whisper_model_path = gf.whisper_model_path)
    (hctx : gf.whisper_context = some c)
    (hm : gf.whisper_ctx_mutex = true) (hcv : gf.wshiper_thread_cv = true)
    (ht : gf.whisper_thread = some t)
    (htm : gf.text_source_mutex = true)
    (hex : env.model_exists s.whisper_model_path = true) :
    ∃ pre post,
      (transcription_filter_update env gf s).2 =
          pre ++ [Event.lock_ctx, Event.whisper_free c, Event.null_context,
                  Event.notify_cv, Event.unlock_ctx, Event.join_thread t] ++ post
      ∧ (transcription_filter_update env gf s).2.filter (fun e => isSwapEvent e) =
          [Event.whisper_free c, Event.null_context, Event.notify_cv,
           Event.join_thread t, Event.init_context, Event.start_thread env.tid]
      ∧ (transcription_filter_update env gf s).1.whisper_thread = some env.tid := by
  obtain ⟨pre, tail, heq, hpre, htail, hc', ht'⟩ :=
    transcription_filter_update_swap env gf s c t hpath hctx hm hcv ht htm hex
  refine ⟨pre,
    (init_whisper_context_model env.init_ctx s.whisper_model_path).2
      ++ [Event.start_thread env.tid] ++ tail, ?_, ?_, ht'⟩
  · rw [heq]
    simp [List.append_assoc]
  · rw [heq]
    simp only [List.filter_append, hpre, htail, init_whisper_context_model_filter]
    simp [isSwapEvent]

/-- C7: a settings update whose model path equals the currently loaded one
leaves the engine handle and the worker thread handle untouched and performs
no free, join, create, start, notify or download - the swap is a no-op. -/
theorem same_model_path_noop (env : Env) (gf : transcription_filter_data)
    (s : obs_data) (h : s.whisper_model_path = gf.whisper_model_path) :
    (transcription_filter_update env gf s).1.whisper_context = gf.whisper_context
    ∧ (transcription_filter_update env gf s).1.whisper_thread = gf.whisper_thread
    ∧ (transcription_filter_update env gf s).2.filter (fun e => isSwapEvent e)
        = [] := by
  obtain ⟨a1, a2, a3, a4, a5, a6⟩ := apply_scalar_settings_fields gf s
  obtain ⟨t1, t2, t3, t4, t5, t6⟩ :=
    update_text_source_part_fields (apply_scalar_settings gf s) s
  cases hearly : (update_text_source_part (apply_scalar_settings gf s) s).early with
  | true =>
    have hrun : transcription_filter_update env gf s =
        ((update_text_source_part (apply_scalar_settings gf s) s).gf,
         (update_text_source_part (apply_scalar_settings gf s) s).trace) := by
      simp only [transcription_filter_update, hearly, if_true]
    rw [hrun]
    exact ⟨t1.trans a1, t2.trans a2, t6⟩
  | false =>
    have hmodel :
        update_model_part env
          (update_text_source_part (apply_scalar_settings gf s) s).gf s =
        ⟨(update_text_source_part (apply_scalar_settings gf s) s).gf, [], false⟩ :=
      update_model_part_same_path env _ s (by rw [t3, a3]; exact h)
    obtain ⟨p1, p2, p3⟩ :=
      update_params_part_fields env
        (update_text_source_part (apply_scalar_settings gf s) s).gf s
    have hrun : transcription_filter_update env gf s =
        ((update_params_part env
            (update_text_source_part (apply_scalar_settings gf s) s).gf s).1,
         (update_text_source_part (apply_scalar_settings gf s) s).trace
           ++ ([] : List Event)
           ++ (update_params_part env
                (update_text_source_part (apply_scalar_settings gf s) s).gf s).2) := by
      simp only [transcription_filter_update, hearly, hmodel, Bool.false_eq_true,
        if_false]
    rw [hrun]
    refine ⟨?_, ?_, ?_⟩
    · rw [p1, t1, a1]
    · rw [p2, t2, a2]
    · simp [List.filter_append, t6, p3]

/-- C8: failed engine creation is handled cleanly: (1) at filter creation the
create function reports an error and returns null, linking no
partially-initialised state into the pipeline; (2) at a model swap with a
locally present but malformed file, the update reports an error, leaves the
engine handle null, and the resulting filter passes audio through untouched;
(3) a failed asynchronous model download reports an error and changes
nothing. -/
theorem engine_creation_failure_clean (env : Env) (s : obs_data)
    (gf : transcription_filter_data) (a : obs_audio_data) (c t : Nat)
    (status : Int) :
    (env.init_ctx s.whisper_model_path = none →
        (transcription_filter_create env s).1 = none
        ∧ Event.log_error ∈ (transcription_filter_create env s).2)
    ∧ (¬ s.whisper_model_path = gf.whisper_model_path →
        gf.whisper_context = some c →
        gf.whisper_ctx_mutex = true →
        gf.wshiper_thread_cv = true →
        gf.whisper_thread = some t →
        gf.text_source_mutex = true →
        env.model_exists s.whisper_model_path = true →
        env.init_ctx s.whisper_model_path = none →
        (transcription_filter_update env gf s).1.whisper_context = none
        ∧ Event.log_error ∈ (transcription_filter_update env gf s).2
        ∧ transcription_filter_filter_audio
            (some (transcription_filter_update env gf s).1) (some a)
            = (some (transcription_filter_update env gf s).1, some a))
    ∧ (¬ status = 0 →
        model_download_callback env gf status = (gf, [Event.log_error])) := by
  refine ⟨?_, ?_, ?_⟩
  · intro hinit
    rw [transcription_filter_create]
    simp [init_whisper_context_model_fail env.init_ctx s.whisper_model_path hinit]
  · intro hpath hctx hm hcv ht htm hex hinit
    obtain ⟨pre, tail, heq, hpre, htail, hc', ht'⟩ :=
      transcription_filter_update_swap env gf s c t hpath hctx hm hcv ht htm hex
    have hfail := init_whisper_context_model_fail env.init_ctx s.whisper_model_path hinit
    have hnone : (transcription_filter_update env gf s).1.whisper_context = none := by
      rw [hc', hfail]
    refine ⟨hnone, ?_, filter_audio_passthrough_no_ctx _ a hnone⟩
    rw [heq, hfail]
    simp
  · intro hstatus
    simp [model_download_callback, hstatus]

/-- C9: the defaults operation stores beam-search sampling, 4 inference
threads and `no_context = true` (text carry-over disabled) among its flat set
of named option defaults. -/
theorem defaults_as_specified :
    transcription_filter_defaults.lookup "whisper_sampling_method"
        = some (obs_data_value.i WHISPER_SAMPLING_BEAM_SEARCH)
    ∧ transcription_filter_defaults.lookup "n_threads" = some (obs_data_value.i 4)
    ∧ transcription_filter_defaults.lookup "no_context" = some (obs_data_value.b true) := by
  refine ⟨?_, ?_, ?_⟩ <;> rfl

lemma file_contents_after_append (c : Option String) (p : String)
    (l1 l2 : List Event) :
    file_contents_after c p (l1 ++ l2) =
      file_contents_after (file_contents_after c p l1) p l2 := by
  induction l1 generalizing c with
  | nil => rfl
  | cons e rest ih => cases e <;> simp [file_contents_after, ih]

/-- The optional caption-forwarding events of one publish. -/
def caption_events (w : ObsWorld) (gf : transcription_filter_data)
    (str : String) : List Event :=
  if gf.caption_to_stream then
    match w.streaming_output with
    | some _ => [Event.caption str]
    | none => []
  else []

lemma caption_events_no_file_write (w : ObsWorld)
    (gf : transcription_filter_data) (str : String) :
    (caption_events w gf str).filter (fun e => is_file_write_event e) = [] := by
  unfold caption_events
  split
  · split <;> simp [is_file_write_event]
  · rfl

lemma file_contents_after_caption_events (c : Option String) (p : String)
    (w : ObsWorld) (gf : transcription_filter_data) (str : String) :
    file_contents_after c p (caption_events w gf str) = c := by
  unfold caption_events
  split
  · split <;> simp [file_contents_after]
  · rfl

/-- With a file path configured and no text-element name, one publish is the
caption events followed by exactly one truncating file write. -/
lemma set_text_callback_file_route (w : ObsWorld)
    (gf : transcription_filter_data) (str : String)
    (hp : ¬ gf.output_file_path = "") (hn : gf.text_source_name = none) :
    set_text_callback w gf str =
      (gf, caption_events w gf str ++ [Event.file_write gf.output_file_path str]) := by
  unfold set_text_callback caption_events
  simp [hp, hn]

/-- C5: with a non-empty file sink path and no text-element sink configured,
each publish truncate-writes the file with exactly the published text and
leaves the state unchanged, so after publishing `sa` then `sb` the file's
final contents are exactly `sb` (in particular "a" then "ab" leaves "ab"). -/
theorem file_sink_truncating_overwrite (w : ObsWorld)
    (gf : transcription_filter_data) (sa sb : String) (c0 : Option String)
    (hp : ¬ gf.output_file_path = "") (hn : gf.text_source_name = none) :
    (set_text_callback w gf sa).1 = gf
    ∧ (set_text_callback w gf sa).2.filter (fun e => is_file_write_event e)
        = [Event.file_write gf.output_file_path sa]
    ∧ file_contents_after
        (file_contents_after c0 gf.output_file_path (set_text_callback w gf sa).2)
        gf.output_file_path
        (set_text_callback w (set_text_callback w gf sa).1 sb).2
      = some sb := by
  have h1 := set_text_callback_file_route w gf sa hp hn
  have h2 := set_text_callback_file_route w gf sb hp hn
  refine ⟨by rw [h1], ?_, ?_⟩
  · rw [h1]
    simp only [List.filter_append, caption_events_no_file_write]
    simp [is_file_write_event]
  · rw [h1]
    simp only []
    rw [h2]
    simp only []
    rw [file_contents_after_append, file_contents_after_append,
      file_contents_after_caption_events, file_contents_after_caption_events]
    simp [file_contents_after]

/-- The router phase conditions for the text-element path: name configured
and mutex present force the non-file branch. -/
lemma set_text_callback_element_route (w : ObsWorld)
    (gf : transcription_filter_data) (str : String) (nm : String)
    (hname : gf.text_source_name = some nm)
    (hmx : gf.text_source_mutex = true) :
    set_text_callback w gf str =
      (let r1 :=
        if gf.text_source = none then
          let r := acquire_weak_text_source_ref w gf
          (r.1, [Event.acquire_attempt] ++ r.2)
        else (gf, ([] : List Event))
      match r1.1.text_source with
      | none => (r1.1, caption_events w gf str ++ r1.2
          ++ [Event.lock_text, Event.log_error, Event.unlock_text])
      | some wk =>
        match w.weak_source_get_source wk with
        | none => (r1.1, caption_events w gf str ++ r1.2
            ++ [Event.lock_text, Event.log_error, Event.unlock_text])
        | some target =>
          (r1.1, caption_events w gf str ++ r1.2
            ++ [Event.lock_text, Event.set_source_text target str,
                Event.unlock_text])) := by
  unfold set_text_callback caption_events
  simp [hname, hmx]

lemma caption_events_members (w : ObsWorld) (gf : transcription_filter_data)
    (str : String) (e : Event) (he : e ∈ caption_events w gf str) :
    e = Event.caption str := by
  unfold caption_events at he
  split at he
  · split at he <;> simp_all
  · simp_all

/-- C6 (amended): with a text-element sink configured, an unresolvable
publish reports an error and is dropped; when no reference is cached
(element not found) the publish and the next one each attempt resolution
again; but when the cached weak reference has gone stale, the reference is
kept and neither this publish nor the next attempts resolution again. -/
theorem element_sink_error_handling (w : ObsWorld)
    (gf : transcription_filter_data) (nm : String) (wk : Nat)
    (str str2 : String)
    (hname : gf.text_source_name = some nm)
    (hmx : gf.text_source_mutex = true) :
    ((gf.text_source = none → w.get_source_by_name nm = none →
        (set_text_callback w gf str).1 = gf
        ∧ Event.log_error ∈ (set_text_callback w gf str).2
        ∧ (∀ tgt s2, Event.set_source_text tgt s2 ∉ (set_text_callback w gf str).2)
        ∧ Event.acquire_attempt ∈ (set_text_callback w gf str).2
        ∧ Event.acquire_attempt ∈
            (set_text_callback w (set_text_callback w gf str).1 str2).2))
    ∧ (gf.text_source = some wk → w.weak_source_get_source wk = none →
        (set_text_callback w gf str).1 = gf
        ∧ Event.log_error ∈ (set_text_callback w gf str).2
        ∧ (∀ tgt s2, Event.set_source_text tgt s2 ∉ (set_text_callback w gf str).2)
        ∧ Event.acquire_attempt ∉ (set_text_callback w gf str).2
        ∧ Event.acquire_attempt ∉
            (set_text_callback w (set_text_callback w gf str).1 str2).2) := by
  constructor
  · intro hts hw
    have hacq : acquire_weak_text_source_ref w gf =
        (gf, [Event.lock_text, Event.log_error, Event.unlock_text]) := by
      unfold acquire_weak_text_source_ref
      simp [hname, hw]
    have hone : ∀ s', set_text_callback w gf s' =
        (gf, caption_events w gf s'
          ++ [Event.acquire_attempt, Event.lock_text, Event.log_error,
              Event.unlock_text]
          ++ [Event.lock_text, Event.log_error, Event.unlock_text]) := by
      intro s'
      rw [set_text_callback_element_route w gf s' nm hname hmx]
      simp [hts, hacq]
    refine ⟨by rw [hone str], ?_, ?_, ?_, ?_⟩
    · rw [hone str]; simp
    · intro tgt s2
      rw [hone str]
      simp only [List.mem_append]
      rintro ((hc | hc) | hc)
      · exact absurd (caption_events_members w gf str _ hc) (by simp)
      · simp_all
      · simp_all
    · rw [hone str]; simp
    · rw [hone str]
      simp only []
      rw [hone str2]
      simp
  · intro hts hstale
    have hone : ∀ s', set_text_callback w gf s' =
        (gf, caption_events w gf s' ++ ([] : List Event)
          ++ [Event.lock_text, Event.log_error, Event.unlock_text]) := by
      intro s'
      rw [set_text_callback_element_route w gf s' nm hname hmx]
      simp [hts, hstale]
    refine ⟨by rw [hone str], ?_, ?_, ?_, ?_⟩
    · rw [hone str]; simp
    · intro tgt s2
      rw [hone str]
      simp only [List.mem_append]
      rintro ((hc | hc) | hc)
      · exact absurd (caption_events_members w gf str _ hc) (by simp)
      · simp_all
      · simp_all
    · rw [hone str]
      simp only [List.mem_append]
      rintro ((hc | hc) | hc)
      · exact absurd (caption_events_members w gf str _ hc) (by simp)
      · simp_all
      · simp_all
    · rw [hone str]
      simp only []
      rw [hone str2]
      simp only [List.mem_append]
      rintro ((hc | hc) | hc)
      · exact absurd (caption_events_members w gf str2 _ hc) (by simp)
      · simp_all
      · simp_all

/-! Concrete fixtures for the closed witnesses and counterexamples below. -/

/-- A live, fully initialised filter state: two channels, model loaded
(handle 1), worker running (thread 2), all synchronisation primitives
allocated, no sink configured. -/
def gf0 : transcription_filter_data :=
  { channels := 2, sample_rate := 48000, frames := 144000, last_num_frames := 0
    input_buffers := List.replicate MAX_AUDIO_CHANNELS circlebuf_init
    info_buffer := [], copy_buffers_alloc := true
    whisper_model_path := "models/ggml-tiny.en.bin"
    whisper_context := some 1
    overlap_ms := 100, overlap_frames := 4800
    resampler := some 3
    whisper_buf_mutex := true, whisper_ctx_mutex := true
    wshiper_thread_cv := true, text_source_mutex := true
    text_source := none, text_source_name := none, output_file_path := ""
    whisper_thread := some 2, active := true, log_level := 400
    vad_enabled := true, log_words := true, caption_to_stream := false
    whisper_params := whisper_full_params_zeroed }

/-- A two-frame stereo packet (8 bytes of samples per channel). -/
def a0 : obs_audio_data :=
  { frames := 2, timestamp := 100
    data := [[0, 1, 2, 3, 4, 5, 6, 7], [8, 9, 10, 11, 12, 13, 14, 15]] }

/-- Settings whose model path differs from the one loaded in `gf0`. -/
def s0 : obs_data :=
  { log_level := 400, vad_enabled := true, log_words := true
    caption_to_stream := false
    subtitle_sources := some "none"
    subtitle_output_filename := none
    whisper_model_path := "models/ggml-base.en.bin"
    whisper_sampling_method := WHISPER_SAMPLING_BEAM_SEARCH
    whisper_language_select := "en", initial_prompt := ""
    n_threads := 4, n_max_text_ctx := 16384
    translate := false, no_context := true, single_segment := true
    print_special := false, print_progress := false, print_realtime := false
    print_timestamps := false, token_timestamps := false
    thold_pt := 0.01, thold_ptsum := 0.01, max_len := 0
    split_on_word := false, max_tokens := 32, speed_up := false
    suppress_blank := false, suppress_non_speech_tokens := true
    temperature := 0.5, max_initial_ts := 1, length_penalty := -1 }

/-- Settings whose model path equals the one loaded in `gf0`. -/
def s_same : obs_data := { s0 with whisper_model_path := "models/ggml-tiny.en.bin" }

/-- An environment in which every model is present and engine creation
succeeds (handle 11); fresh worker threads get ids 21 / 22. -/
def env0 : Env :=
  { model_exists := fun _ => true
    init_ctx := fun _ => some 11
    tid := 21, create_tid := 22
    wfdp := fun st => { whisper_full_params_zeroed with strategy := st }
    buffer_size_msec := 3000, overlap_size_msec := 100
    channels := 2, sample_rate := 48000, resampler_id := 3 }

/-- Like `env0` but engine creation always fails (malformed weights). -/
def env_fail : Env := { env0 with init_ctx := fun _ => none }

/-- A host world in which no source can be resolved, no weak reference can be
promoted and there is no streaming output. -/
def world0 : ObsWorld :=
  { get_source_by_name := fun _ => none
    get_weak_source := fun _ => none
    weak_source_get_source := fun _ => none
    streaming_output := none }

/-- `gf0` made inactive. -/
def gf_inactive : transcription_filter_data := { gf0 with active := false }

/-- `gf0` with a file sink configured. -/
def gf_file : transcription_filter_data :=
  { gf0 with output_file_path := "captions.txt" }

/-- `gf0` routed to a text element that cannot be found (no cached ref). -/
def gf_missing : transcription_filter_data :=
  { gf0 with text_source_name := some "Caption Text" }

/-- `gf0` routed to a text element with a stale cached weak reference 7. -/
def gf_stale : transcription_filter_data :=
  { gf0 with text_source := some 7, text_source_name := some "Caption Text" }

/-- C6 counterexample: in `world0` with a stale cached weak reference, a
publish reports an error and is dropped (no synchronous retry: no resolution
attempt in the same publish), but the next publish does not attempt
resolution of the reference again either - the stale reference is kept, so
the claim's "the next publish attempts resolution again" fails on the stale
branch. -/
theorem stale_ref_next_publish_skips_resolution :
    Event.log_error ∈ (set_text_callback world0 gf_stale "a").2
    ∧ (set_text_callback world0 gf_stale "a").1 = gf_stale
    ∧ Event.acquire_attempt ∉ (set_text_callback world0 gf_stale "a").2
    ∧ Event.acquire_attempt ∉
        (set_text_callback world0 ((set_text_callback world0 gf_stale "a").1) "b").2 := by
  decide

/-- Witness for C1 at concrete inputs. -/
theorem model_swap_joins_old_worker_first_witness :
    (¬ s0.whisper_model_path = gf0.whisper_model_path)
    ∧ (∃ pre post,
        (transcription_filter_update env0 gf0 s0).2 =
            pre ++ [Event.lock_ctx, Event.whisper_free 1, Event.null_context,
                    Event.notify_cv, Event.unlock_ctx, Event.join_thread 2] ++ post
        ∧ (transcription_filter_update env0 gf0 s0).2.filter (fun e => isSwapEvent e) =
            [Event.whisper_free 1, Event.null_context, Event.notify_cv,
             Event.join_thread 2, Event.init_context, Event.start_thread env0.tid]
        ∧ (transcription_filter_update env0 gf0 s0).1.whisper_thread = some env0.tid) :=
  ⟨by decide,
   model_swap_joins_old_worker_first env0 gf0 s0 1 2 (by decide) rfl rfl rfl rfl rfl rfl⟩

/-- Witness for C2 at concrete inputs. -/
theorem ring_buffer_info_lockstep_witness :
    (∀ c, c < gf0.channels →
      ((process_packets gf0 [a0]).input_buffers.getD c circlebuf_init).size
        = (gf0.input_buffers.getD c circlebuf_init).size
          + ([a0].map (fun a => a.frames)).sum * sizeof_float)
    ∧ (process_packets gf0 [a0]).info_buffer.length
        = gf0.info_buffer.length + [a0].length :=
  ring_buffer_info_lockstep gf0 [a0] rfl (by decide) rfl rfl (by decide) (by decide)

/-- Witness for C3 at concrete inputs. -/
theorem passthrough_when_inactive_or_no_engine_witness :
    transcription_filter_filter_audio (some gf_inactive) (some a0)
        = (some gf_inactive, some a0)
    ∧ process_packets gf_inactive [a0] = gf_inactive
    ∧ (transcription_filter_filter_audio (some gf0) (some a0)).2 = some a0 :=
  ⟨(passthrough_when_inactive_or_no_engine gf_inactive a0 [a0]).1 (Or.inl rfl),
   (passthrough_when_inactive_or_no_engine gf_inactive a0 [a0]).2.1 rfl,
   (passthrough_when_inactive_or_no_engine gf0 a0 []).2.2 (some gf0)⟩

/-- Witness for C4 at concrete inputs. -/
theorem destroy_joins_worker_before_frees_witness :
    gf0.whisper_context = some 1
    ∧ gf0.whisper_thread = some 2
    ∧ (∃ post, transcription_filter_destroy gf0 =
          [Event.lock_ctx, Event.whisper_free 1, Event.null_context,
           Event.notify_cv, Event.unlock_ctx, Event.join_thread 2] ++ post
        ∧ Event.free_copy_buffers ∈ post
        ∧ (∀ i, i < gf0.channels → Event.free_input_buffer i ∈ post)
        ∧ Event.free_info_buffer ∈ post
        ∧ Event.delete_buf_mutex ∈ post
        ∧ Event.delete_ctx_mutex ∈ post
        ∧ Event.delete_cv ∈ post
        ∧ Event.delete_text_source_mutex ∈ post) :=
  ⟨rfl, rfl, destroy_joins_worker_before_frees gf0 1 2 rfl rfl⟩

/-- Witness for C5 at concrete inputs: publishing "a" then "ab" leaves the
file holding exactly "ab". -/
theorem file_sink_truncating_overwrite_witness :
    (set_text_callback world0 gf_file "a").1 = gf_file
    ∧ (set_text_callback world0 gf_file "a").2.filter (fun e => is_file_write_event e)
        = [Event.file_write gf_file.output_file_path "a"]
    ∧ file_contents_after
        (file_contents_after none gf_file.output_file_path
          (set_text_callback world0 gf_file "a").2)
        gf_file.output_file_path
        (set_text_callback world0 ((set_text_callback world0 gf_file "a").1) "ab").2
      = some "ab" :=
  file_sink_truncating_overwrite world0 gf_file "a" "ab" none (by decide) rfl

/-- Witness for C6 (amended) at concrete inputs: the not-found branch
re-attempts resolution on the next publish; the stale branch never does. -/
theorem element_sink_error_handling_witness :
    (gf_missing.text_source = none
      ∧ ((set_text_callback world0 gf_missing "a").1 = gf_missing
        ∧ Event.log_error ∈ (set_text_callback world0 gf_missing "a").2
        ∧ (∀ tgt s2,
            Event.set_source_text tgt s2 ∉ (set_text_callback world0 gf_missing "a").2)
        ∧ Event.acquire_attempt ∈ (set_text_callback world0 gf_missing "a").2
        ∧ Event.acquire_attempt ∈
            (set_text_callback world0 ((set_text_callback world0 gf_missing "a").1) "b").2))
    ∧ (gf_stale.text_source = some 7
      ∧ ((set_text_callback world0 gf_stale "a").1 = gf_stale
        ∧ Event.log_error ∈ (set_text_callback world0 gf_stale "a").2
        ∧ (∀ tgt s2,
            Event.set_source_text tgt s2 ∉ (set_text_callback world0 gf_stale "a").2)
        ∧ Event.acquire_attempt ∉ (set_text_callback world0 gf_stale "a").2
        ∧ Event.acquire_attempt ∉
            (set_text_callback world0 ((set_text_callback world0 gf_stale "a").1) "b").2)) :=
  ⟨⟨rfl, (element_sink_error_handling world0 gf_missing "Caption Text" 7 "a" "b"
      rfl rfl).1 rfl rfl⟩,
   ⟨rfl, (element_sink_error_handling world0 gf_stale "Caption Text" 7 "a" "b"
      rfl rfl).2 rfl rfl⟩⟩

/-- Witness for C7 at concrete inputs. -/
theorem same_model_path_noop_witness :
    s_same.whisper_model_path = gf0.whisper_model_path
    ∧ ((transcription_filter_update env0 gf0 s_same).1.whisper_context
          = gf0.whisper_context
      ∧ (transcription_filter_update env0 gf0 s_same).1.whisper_thread
          = gf0.whisper_thread
      ∧ (transcription_filter_update env0 gf0 s_same).2.filter
          (fun e => isSwapEvent e) = []) :=
  ⟨rfl, same_model_path_noop env0 gf0 s_same rfl⟩

/-- Witness for C8 at concrete inputs: creation failure at filter creation,
at a model swap, and after a failed download. -/
theorem engine_creation_failure_clean_witness :
    (env_fail.init_ctx s0.whisper_model_path = none
      ∧ ((transcription_filter_create env_fail s0).1 = none
        ∧ Event.log_error ∈ (transcription_filter_create env_fail s0).2))
    ∧ ((transcription_filter_update env_fail gf0 s0).1.whisper_context = none
      ∧ Event.log_error ∈ (transcription_filter_update env_fail gf0 s0).2
      ∧ transcription_filter_filter_audio
          (some (transcription_filter_update env_fail gf0 s0).1) (some a0)
          = (some (transcription_filter_update env_fail gf0 s0).1, some a0))
    ∧ model_download_callback env_fail gf0 1 = (gf0, [Event.log_error]) :=
  ⟨⟨rfl, (engine_creation_failure_clean env_fail s0 gf0 a0 1 2 1).1 rfl⟩,
   (engine_creation_failure_clean env_fail s0 gf0 a0 1 2 1).2.1
     (by decide) rfl rfl rfl rfl rfl rfl rfl,
   (engine_creation_failure_clean env_fail s0 gf0 a0 1 2 1).2.2 (by decide)⟩

end LocalVocal
